import Mathlib

/-!
Verification of the browser-side client module of the coursebuilder
android-container system (`src/resources/client.js`).

The client module is a jQuery-based IIFE holding mutable module-level state
(`_runPollingIntervalId`, `_runStart`, `_runTicket`, `_runPayload`, ...) and a
collection of handlers driven by AJAX callbacks and `setInterval` timers.  We
embed it shallowly: the module state becomes an explicit `ClientState` record,
each handler becomes a pure function `ClientState → ... → ClientState × List Effect`
where `Effect` records the externally visible actions (outgoing AJAX requests,
UI rendering, console logging), and the browser event loop becomes a `step`
function over an event alphabet.  JavaScript `Date` values are embedded as
integer millisecond timestamps; `null` becomes `Option.none`.
-/

namespace AndroidClient

/-- Result of JavaScript `Number(ms / 1000).toFixed(1)` for an integer number
of milliseconds `ms`: the value in tenths of a second, rounded to the nearest
tenth (half away from zero). The decimal string `toFixed` produces denotes
exactly this many tenths. -/
def jsToFixed1 (ms : Int) : Int :=
  if 0 ≤ ms then (ms + 50) / 100 else -((-ms + 50) / 100)

/-- The JavaScript value returned by `module._getDeltaSeconds`: either the
number `0` (the `from === null` early return) or the decimal string produced
by `toFixed(1)`, represented by its numeric value in tenths of a second. -/
inductive DeltaSeconds where
  | num (n : Int)
  | str (tenths : Int)
deriving DecidableEq

/-- JavaScript `delta > k` where `delta` is the value `_getDeltaSeconds`
returned and `k` is a number: a string operand is coerced to its numeric
value, so the string for `t` tenths compares as `t / 10 > k`. -/
def DeltaSeconds.gtInt : DeltaSeconds → Int → Bool
  | .num n, k => n > k
  | .str t, k => t > 10 * k

/-- `module._getDeltaSeconds(from, to)` from client.js:
returns `0` when `from === null`, otherwise
`Number((to.getTime() - from.getTime()) / 1000).toFixed(1)`. -/
def getDeltaSeconds (fromTime : Option Int) (toTime : Int) : DeltaSeconds :=
  match fromTime with
  | none => .num 0
  | some f => .str (jsToFixed1 (toTime - f))

/-- `module._runPollingTimeoutSec = 90`. -/
def runPollingTimeoutSec : Int := 90

/-- `module._runPollingIntervalMsec = 3000`. -/
def runPollingIntervalMsec : Int := 3000

/-- `module._taskComplete = "complete"`. -/
def taskComplete : String := "complete"

/-- `module._taskRunning = "running"`. -/
def taskRunning : String := "running"

/-- The replacement text `"<br />"` inserted by `module._newlineToBr`. -/
def brText : List Char := "<br />".data

/-- `module._newlineToBr`, i.e. the global regex replace
`(data + '').replace(/([^>\r\n]?)(\r\n|\n\r|\r|\n)/g, "$1" + "<br />" + "$2")`,
embedded as a left-to-right scan over the character list.  At each position the
regex engine first lets the optional group `[^>\r\n]?` consume one character
when that character is neither `>` nor a newline, then matches the alternation
`\r\n|\n\r|\r|\n` in order; on success it emits `$1<br />$2` and resumes after
the match, otherwise it emits the current character and advances by one.  When
the optional group consumes a character but no newline follows, backtracking
to the empty group cannot succeed either (the consumed character is not a
newline), so the position fails as a whole. -/
def newlineToBrAux : List Char → List Char
  | [] => []
  | '\r' :: '\n' :: rest => brText ++ '\r' :: '\n' :: newlineToBrAux rest
  | '\n' :: '\r' :: rest => brText ++ '\n' :: '\r' :: newlineToBrAux rest
  | '\r' :: rest => brText ++ '\r' :: newlineToBrAux rest
  | '\n' :: rest => brText ++ '\n' :: newlineToBrAux rest
  | c :: '\r' :: '\n' :: rest =>
    if c = '>' then c :: newlineToBrAux ('\r' :: '\n' :: rest)
    else c :: (brText ++ '\r' :: '\n' :: newlineToBrAux rest)
  | c :: '\n' :: '\r' :: rest =>
    if c = '>' then c :: newlineToBrAux ('\n' :: '\r' :: rest)
    else c :: (brText ++ '\n' :: '\r' :: newlineToBrAux rest)
  | c :: '\r' :: rest =>
    if c = '>' then c :: newlineToBrAux ('\r' :: rest)
    else c :: (brText ++ '\r' :: newlineToBrAux rest)
  | c :: '\n' :: rest =>
    if c = '>' then c :: newlineToBrAux ('\n' :: rest)
    else c :: (brText ++ '\n' :: newlineToBrAux rest)
  | c :: rest => c :: newlineToBrAux rest

/-- `module._newlineToBr` on strings. -/
def newlineToBr (data : String) : String :=
  String.mk (newlineToBrAux data.data)

/-- Specification-worded counterpart for `_newlineToBr` (refinement target,
written from the claim, not from the source): insert `"<br />"` immediately
before each newline sequence, scanning left to right and preferring the pairs
`\r\n` and `\n\r` over single `\r` or `\n`; all other characters are copied
unchanged. -/
def specInsertBrBeforeNewlines : List Char → List Char
  | [] => []
  | '\r' :: '\n' :: rest => brText ++ '\r' :: '\n' :: specInsertBrBeforeNewlines rest
  | '\n' :: '\r' :: rest => brText ++ '\n' :: '\r' :: specInsertBrBeforeNewlines rest
  | '\r' :: rest => brText ++ '\r' :: specInsertBrBeforeNewlines rest
  | '\n' :: rest => brText ++ '\n' :: specInsertBrBeforeNewlines rest
  | c :: rest => c :: specInsertBrBeforeNewlines rest

/-- `module._formatTaskCompletePayload`. -/
def formatTaskCompletePayload (payload : String) : String :=
  "<img src='data:image/jpeg;base64," ++ payload ++ "' />"

/-- `module._formatPayload`: switch on `status` with a single case for
`module._taskComplete` and a default branch through `_newlineToBr`. -/
def formatPayload (status payload : String) : String :=
  if status = taskComplete then formatTaskCompletePayload payload
  else newlineToBr payload

/-- A JSON value as produced by `JSON.stringify` on the request objects the
client builds (only the constructors those objects use). Object fields keep
the JavaScript object-literal key order. -/
inductive Json where
  | null
  | str (s : String)
  | arr (elems : List Json)
  | obj (fields : List (String × Json))

/-- Top-level keys of a JSON object, in order. -/
def Json.topKeys : Json → List String
  | .obj fields => fields.map Prod.fst
  | _ => []

/-- Look up a top-level field of a JSON object. -/
def Json.getField (j : Json) (k : String) : Option Json :=
  match j with
  | .obj fields => (fields.find? (fun kv => kv.1 = k)).map Prod.snd
  | _ => none

/-- A nullable JavaScript string serialized into JSON: `null` or the string. -/
def jsField : Option String → Json
  | none => .null
  | some s => .str s

/-- String concatenation with a nullable JavaScript value: `null` renders as
the text `"null"`. -/
def jsStr : Option String → String
  | none => "null"
  | some s => s

/-- `module._makePatch(filename, contents)`: the object literal
`{contents: contents, filename: filename}` (key order as written). -/
def makePatch (filename contents : Json) : Json :=
  .obj [("contents", contents), ("filename", filename)]

/-- The fields of a jQuery XHR object the client inspects: the HTTP status,
`responseText`, and `responseJSON`.  `responseJSON` is `some s` when the
parsed response body is exactly the JavaScript string `s` (the only shape the
client ever compares against, with `===`), and `none` otherwise. -/
structure Xhr where
  status : Nat
  responseText : String
  responseJSON : Option String
deriving DecidableEq

/-- The `data.payload` object of a status-poll (`GET /rest/balancer/v1`)
response: a task status and its status-dependent payload text. -/
structure RunPayload where
  status : String
  payload : String
deriving DecidableEq

/-- A status-poll response as seen by `_onRunGetSuccess`: the XHR HTTP status
and `data.payload`, which is `none` when the body carries no (truthy) payload
object. -/
structure RunResponse where
  httpStatus : Nat
  payload : Option RunPayload
deriving DecidableEq

/-- The `data.payload` object of a create-task (`POST /rest/balancer/v1`)
success response. -/
structure PostPayload where
  ticket : String
deriving DecidableEq

/-- The module-level mutable state of the client IIFE.  `runPolling` packages
`_runPollingIntervalId` together with the ticket captured by the closure that
`window.setInterval` runs; it is `none` exactly when
`module._runPollingIntervalId === null`.  Times are millisecond timestamps. -/
structure ClientState where
  editorFile : Option String
  projectName : Option String
  statusUpdateIntervalId : Option Nat
  statusUpdateIntervalStart : Option Int
  runPayload : Option String
  runPolling : Option (Nat × String)
  runStart : Option Int
  runTicket : Option String
deriving DecidableEq

/-- The module state right after the IIFE initializers run. -/
def initialState : ClientState :=
  { editorFile := none
    projectName := none
    statusUpdateIntervalId := none
    statusUpdateIntervalStart := none
    runPayload := none
    runPolling := none
    runStart := none
    runTicket := none }

/-- Externally visible actions of the handlers: outgoing AJAX requests,
`_setUiStateRunDone` rendering (its status line and optional result payload),
and console logging. -/
inductive Effect where
  | ajaxStatusGet (ticket : String)
  | ajaxTaskPost (body : Json)
  | renderRunDone (status : String) (payload : Option String)
  | consoleLog (msg : String)

/-- Outcome of running a handler whose JavaScript body can throw a
`TypeError` part-way through (accessing a property of a missing `payload`):
either it ran to completion, or it threw after having already performed the
recorded state changes and effects. -/
inductive HandlerResult where
  | ok (s : ClientState) (effects : List Effect)
  | typeError (s : ClientState) (effects : List Effect)

/-- The state and effects a handler left behind, whether or not it threw. -/
def HandlerResult.out : HandlerResult → ClientState × List Effect
  | .ok s effects => (s, effects)
  | .typeError s effects => (s, effects)

/-- `module._stopPolling`: clears the interval and nulls
`_runPollingIntervalId` and `_runStart`. -/
def stopPolling (s : ClientState) : ClientState :=
  { s with runPolling := none, runStart := none }

/-- `module._clearRun`: nulls `_runPayload` and `_runTicket`. -/
def clearRun (s : ClientState) : ClientState :=
  { s with runPayload := none, runTicket := none }

/-- `module._stopStatusUpdates`. -/
def stopStatusUpdates (s : ClientState) : ClientState :=
  { s with statusUpdateIntervalId := none, statusUpdateIntervalStart := none }

/-- `module._startStatusUpdates`: no-op when an update interval is already
scheduled, otherwise records the start time and the new interval id (the
periodic status-text repaints themselves are pure DOM writes and are not
recorded as effects). -/
def startStatusUpdates (s : ClientState) (now : Int) (newId : Nat) : ClientState :=
  if s.statusUpdateIntervalId ≠ none then s
  else { s with statusUpdateIntervalStart := some now, statusUpdateIntervalId := some newId }

/-- `module._setUiStateRunDone(status, optPayload)`: stops the status-update
timer and renders the status line plus the optional payload. -/
def setUiStateRunDone (s : ClientState) (status : String) (optPayload : Option String) :
    ClientState × List Effect :=
  (stopStatusUpdates s, [.renderRunDone status optPayload])

/-- `module._setUiStateRunning`: swaps the run-control classes (pure DOM),
clears the result element, and starts the status-update timer. -/
def setUiStateRunning (s : ClientState) (now : Int) (newId : Nat) : ClientState :=
  startStatusUpdates s now newId

/-- `module._startPolling(ticket)`: logs and returns when
`_runPollingIntervalId` is already non-null; otherwise records `_runStart`
and schedules the fixed-interval poll whose closure captures `ticket`. -/
def startPolling (s : ClientState) (now : Int) (newId : Nat) (ticket : String) :
    ClientState × List Effect :=
  if s.runPolling ≠ none then (s, [.consoleLog "non-null polling id"])
  else ({ s with runStart := some now, runPolling := some (newId, ticket) }, [])

/-- `module._getRunResults(ticket)` (the body of the polling interval): when
the elapsed time since `_runStart` exceeds `_runPollingTimeoutSec` it stops
polling and renders the local timed-out state, returning before any request
is built; otherwise it issues the status GET. -/
def getRunResults (s : ClientState) (now : Int) (ticket : String) :
    ClientState × List Effect :=
  if (getDeltaSeconds s.runStart now).gtInt runPollingTimeoutSec then
    setUiStateRunDone (stopPolling s) "Ready" (some "Run timed out.")
  else
    (s, [.ajaxStatusGet ticket])

/-- `module._onRunGetError`: stops polling, clears the run, and renders the
fetch-error message. -/
def onRunGetError (s : ClientState) : ClientState × List Effect :=
  setUiStateRunDone (clearRun (stopPolling s)) "Ready"
    (some "Error fetching results; please try again.")

/-- `module._onRunGetSuccess(data, success, xhr)`: non-200 responses are
routed to `_onRunGetError`; a present payload with status `"running"` returns
without touching anything; any other present payload stops polling, clears
the run, and renders the formatted payload under a finished-run status line.
A 200 response with no payload object reaches `data.payload.status` after
`_stopPolling`/`_clearRun` and throws. -/
def onRunGetSuccess (s : ClientState) (data : RunResponse) : HandlerResult :=
  if data.httpStatus ≠ 200 then
    let r := onRunGetError s
    .ok r.1 r.2
  else
    match data.payload with
    | some p =>
      if p.status = taskRunning then .ok s []
      else
        let s2 := clearRun (stopPolling s)
        let payloadStr := formatPayload p.status p.payload
        let statusStr := "Finished run of " ++ jsStr s.projectName ++ ". Status: " ++
          p.status ++ ". Result: "
        let r := setUiStateRunDone s2 statusStr (some payloadStr)
        .ok r.1 r.2
    | none => .typeError (clearRun (stopPolling s)) []

/-- The payload text `_onProjectPostError` chooses: the busy message when
`xhr.responseText` is truthy and `xhr.responseJSON === "Worker locked"`, the
generic job-start failure otherwise. -/
def postErrorText (xhr : Xhr) : String :=
  if xhr.responseText ≠ "" ∧ xhr.responseJSON = some "Worker locked" then
    "All workers busy; please try again later."
  else
    "Unable to start job."

/-- `module._onProjectPostError(xhr, status, error)`. -/
def onProjectPostError (s : ClientState) (xhr : Xhr) : ClientState × List Effect :=
  setUiStateRunDone s "Ready" (some (postErrorText xhr))

/-- `module._onProjectPostSuccess(data, status, xhr)`: non-200 goes to
`_onProjectPostError`; otherwise `_startPolling(data.payload.ticket)` (which
throws if the payload object is missing). -/
def onProjectPostSuccess (s : ClientState) (now : Int) (newId : Nat) (xhr : Xhr)
    (payload : Option PostPayload) : HandlerResult :=
  if xhr.status ≠ 200 then
    let r := onProjectPostError s xhr
    .ok r.1 r.2
  else
    match payload with
    | some p =>
      let r := startPolling s now newId p.ticket
      .ok r.1 r.2
    | none => .typeError s []

/-- The JSON body `_onRunControlClick` serializes into the create-task POST:
the object literal `{patches: [_makePatch(_editorFile, editor.getValue())],
project: _projectName, user_id: 'some_user'}` in its written key order. -/
def runRequestBody (s : ClientState) (editorValue : String) : Json :=
  .obj [
    ("patches", .arr [makePatch (jsField s.editorFile) (.str editorValue)]),
    ("project", jsField s.projectName),
    ("user_id", .str "some_user")]

/-- `module._onRunControlClick(event)`: enters the running UI state and
issues the create-task POST built from the current editor contents. -/
def onRunControlClick (s : ClientState) (now : Int) (newId : Nat)
    (editorValue : String) : ClientState × List Effect :=
  (setUiStateRunning s now newId, [.ajaxTaskPost (runRequestBody s editorValue)])

/-- `module._onProjectGetSuccess` in its 200 branch: records `_editorFile`
and `_projectName` and sets up the editor (DOM only). Non-200 renders the
initial-load failure without touching the run state. -/
def onProjectGetSuccess (s : ClientState) (httpStatus : Nat)
    (filename projectName : Option String) : ClientState :=
  if httpStatus ≠ 200 then s
  else { s with editorFile := filename, projectName := projectName }

/-- The browser event alphabet driving the module: the polling interval
firing, AJAX callbacks for the status GET and create-task POST, the run
button click, and the project GET success callback.  Fresh timestamps and
interval ids arrive as event data. -/
inductive ClientEvent where
  | pollTick (now : Int)
  | runGetSuccess (data : RunResponse)
  | runGetError
  | postSuccess (now : Int) (newId : Nat) (xhr : Xhr) (payload : Option PostPayload)
  | postError (xhr : Xhr)
  | runClick (now : Int) (newId : Nat) (editorValue : String)
  | projectGetSuccess (httpStatus : Nat) (filename projectName : Option String)

/-- Whether an event is the create-task success callback (the only handler
that can start a new polling loop). -/
def ClientEvent.isPostSuccess : ClientEvent → Bool
  | .postSuccess _ _ _ _ => true
  | _ => false

/-- One step of the client event loop.  A `pollTick` runs `_getRunResults`
with the ticket captured by the interval closure, and fires only while the
interval is scheduled: once `_stopPolling` has cleared it, ticks no longer
occur (`window.clearTimeout`).  A thrown `TypeError` propagates out of the
jQuery callback, leaving the state changes made before the throw in place. -/
def step (s : ClientState) : ClientEvent → ClientState × List Effect
  | .pollTick now =>
    match s.runPolling with
    | none => (s, [])
    | some idTicket => getRunResults s now idTicket.2
  | .runGetSuccess data => (onRunGetSuccess s data).out
  | .runGetError => onRunGetError s
  | .postSuccess now newId xhr payload =>
    (onProjectPostSuccess s now newId xhr payload).out
  | .postError xhr => onProjectPostError s xhr
  | .runClick now newId editorValue => onRunControlClick s now newId editorValue
  | .projectGetSuccess httpStatus filename projectName =>
    (onProjectGetSuccess s httpStatus filename projectName, [])

/-- Run the event loop over a list of events, collecting all effects. -/
def run (s : ClientState) : List ClientEvent → ClientState × List Effect
  | [] => (s, [])
  | e :: es =>
    let r := step s e
    let r2 := run r.1 es
    (r2.1, r.2 ++ r2.2)

/-- Whether an effect list contains a status-poll request. -/
def hasStatusGet (effects : List Effect) : Prop :=
  ∃ t, Effect.ajaxStatusGet t ∈ effects

instance (effects : List Effect) : Decidable (hasStatusGet effects) := by
  unfold hasStatusGet
  induction effects with
  | nil => exact .isFalse (by simp)
  | cons e es ih =>
    cases ih with
    | isTrue h =>
      exact .isTrue (by obtain ⟨t, ht⟩ := h; exact ⟨t, List.mem_cons_of_mem e ht⟩)
    | isFalse h =>
      cases e with
      | ajaxStatusGet t => exact .isTrue ⟨t, List.mem_cons_self _ _⟩
      | ajaxTaskPost b =>
        exact .isFalse (by
          rintro ⟨t, ht⟩
          rcases List.mem_cons.mp ht with h1 | h1
          · exact Effect.noConfusion h1
          · exact h ⟨t, h1⟩)
      | renderRunDone a b =>
        exact .isFalse (by
          rintro ⟨t, ht⟩
          rcases List.mem_cons.mp ht with h1 | h1
          · exact Effect.noConfusion h1
          · exact h ⟨t, h1⟩)
      | consoleLog m =>
        exact .isFalse (by
          rintro ⟨t, ht⟩
          rcases List.mem_cons.mp ht with h1 | h1
          · exact Effect.noConfusion h1
          · exact h ⟨t, h1⟩)

/-- Modelled from the spec: the server-side task status vocabulary
(`status ∈ {running, complete, error}` on the wire; the worker and balancer
sources are not part of this tree, only the browser client is). -/
inductive TaskStatus where
  | running
  | complete
  | error
deriving DecidableEq

/-- A status is terminal when it is Complete or Error. -/
def TaskStatus.isTerminal : TaskStatus → Bool
  | .running => false
  | .complete => true
  | .error => true

/-- Modelled from the spec: a ResultStore entry `{status, payload}` (the
`writtenAt` bookkeeping field plays no role in the stability property). -/
structure ResultRecord where
  status : TaskStatus
  payload : String
deriving DecidableEq

/-- Modelled from the spec: the per-worker ResultStore, keyed by ticket. -/
def ResultStore : Type := String → Option ResultRecord

/-- Modelled from the spec: `pollStatus(ticket)` is a pure read from
ResultStore; a missing record is the UnknownTicket error. -/
def pollStatus (store : ResultStore) (ticket : String) : Option ResultRecord :=
  store ticket

/-- Modelled from the spec: the writes that ever touch a ResultStore.
`writeInitial` is TaskExecutor's synchronous initial write (status=Running,
empty payload) for a ticket not yet present — tickets are never reused, so an
accept for an existing ticket does not occur and is modelled as a no-op.
`writeFinal` is the single terminal write the owning background unit performs
when it finishes: it overwrites the record in place, moving it from Running
to a terminal status (the unit is the record's sole writer and runs once, so
a final write never targets an already-terminal record).  `gcCollect` is the
age-based garbage collection deleting a record. -/
inductive StoreOp where
  | writeInitial (ticket : String)
  | writeFinal (ticket : String) (record : ResultRecord)
  | gcCollect (ticket : String)

/-- Modelled from the spec: apply one store operation, with the guards the
spec imposes on writers (see `StoreOp`). -/
def applyOp (store : ResultStore) : StoreOp → ResultStore
  | .writeInitial t => fun k =>
    if k = t then
      match store t with
      | some r => some r
      | none => some { status := .running, payload := "" }
    else store k
  | .writeFinal t r => fun k =>
    if k = t ∧ r.status.isTerminal = true ∧
        (store t).any (fun cur => cur.status == .running) = true then
      some r
    else store k
  | .gcCollect t => fun k => if k = t then none else store k

/-- Apply a sequence of store operations in order. -/
def applyOps (store : ResultStore) : List StoreOp → ResultStore
  | [] => store
  | op :: ops => applyOps (applyOp store op) ops

/-- A state in which a project has been loaded into the editor. -/
def loadedState : ClientState :=
  { initialState with
    editorFile := some "Sample/app/src/main/res/layout/activity_main.xml"
    projectName := some "Sample" }

/-- A state in which a run is being polled: the create-task POST succeeded
and `_startPolling` ran at time 0 with interval id 7 for ticket `"t1"`. -/
def pollingState : ClientState :=
  { loadedState with runPolling := some (7, "t1"), runStart := some 0 }

/-- C9: `_getDeltaSeconds(from, to)` returns the number `0` whenever `from`
is null, regardless of `to`; otherwise it returns `(to - from)` in seconds
rounded to one decimal place as a decimal string (represented by its value in
tenths, which is how it compares numerically).  Consequently the comparison
against the 90-second timeout is false whenever no run start is recorded, so
`_getRunResults` with a null `_runStart` always takes the request branch. -/
theorem c9_delta_seconds_null_is_zero :
    (∀ toTime : Int, getDeltaSeconds none toTime = .num 0) ∧
    (∀ f toTime : Int, getDeltaSeconds (some f) toTime = .str (jsToFixed1 (toTime - f))) ∧
    (∀ toTime : Int, (getDeltaSeconds none toTime).gtInt runPollingTimeoutSec = false) ∧
    (∀ (s : ClientState) (now : Int) (t : String), s.runStart = none →
      getRunResults s now t = (s, [.ajaxStatusGet t])) := by
  refine ⟨fun _ => rfl, fun _ _ => rfl, fun _ => rfl, ?_⟩
  intro s now t h
  unfold getRunResults
  rw [h]
  rfl

/-- C9 witness: the timeout branch is unreachable in the initial state. -/
theorem c9_delta_seconds_null_is_zero_witness :
    getDeltaSeconds none 123456 = .num 0 ∧
    (getDeltaSeconds none 123456).gtInt runPollingTimeoutSec = false ∧
    initialState.runStart = none ∧
    getRunResults initialState 999999 "t1" = (initialState, [.ajaxStatusGet "t1"]) :=
  ⟨c9_delta_seconds_null_is_zero.1 123456,
   c9_delta_seconds_null_is_zero.2.2.1 123456,
   rfl,
   c9_delta_seconds_null_is_zero.2.2.2 initialState 999999 "t1" rfl⟩

/-- C8: `_formatPayload` renders a `"complete"` payload as an inline
base64-encoded JPEG image element, and any other status's payload as text
with newlines converted to HTML line breaks by `_newlineToBr`. -/
theorem c8_format_payload_by_status :
    (∀ p : String, formatPayload taskComplete p =
      "<img src='data:image/jpeg;base64," ++ p ++ "' />") ∧
    (∀ st p : String, st ≠ taskComplete → formatPayload st p = newlineToBr p) := by
  constructor
  · intro p
    rfl
  · intro st p h
    unfold formatPayload
    rw [if_neg h]

/-- C8 witness at status `"complete"` and status `"error"`. -/
theorem c8_format_payload_by_status_witness :
    formatPayload taskComplete "QUJD" =
      "<img src='data:image/jpeg;base64," ++ "QUJD" ++ "' />" ∧
    ("error" ≠ taskComplete ∧ formatPayload "error" "x\ny" = newlineToBr "x\ny") :=
  ⟨c8_format_payload_by_status.1 "QUJD",
   by decide,
   c8_format_payload_by_status.2 "error" "x\ny" (by decide)⟩

/-- C4: the three failure kinds render distinguishably — a create-task
rejection whose response body is the JSON string `"Worker locked"` renders
the busy message, any other create-task failure renders the generic
job-start failure, a transport error while polling renders the fetch-error
message, and the three texts are pairwise distinct. -/
theorem c4_failure_messages_distinct :
    (∀ xhr : Xhr, xhr.responseText ≠ "" → xhr.responseJSON = some "Worker locked" →
      postErrorText xhr = "All workers busy; please try again later.") ∧
    (∀ xhr : Xhr, ¬(xhr.responseText ≠ "" ∧ xhr.responseJSON = some "Worker locked") →
      postErrorText xhr = "Unable to start job.") ∧
    (∀ (s : ClientState) (xhr : Xhr), (onProjectPostError s xhr).2 =
      [.renderRunDone "Ready" (some (postErrorText xhr))]) ∧
    (∀ s : ClientState, (onRunGetError s).2 =
      [.renderRunDone "Ready" (some "Error fetching results; please try again.")]) ∧
    ("All workers busy; please try again later." ≠ "Unable to start job." ∧
      "All workers busy; please try again later." ≠
        "Error fetching results; please try again." ∧
      "Unable to start job." ≠ "Error fetching results; please try again.") := by
  refine ⟨?_, ?_, fun _ _ => rfl, fun _ => rfl, by decide, by decide, by decide⟩
  · intro xhr h1 h2
    unfold postErrorText
    rw [if_pos ⟨h1, h2⟩]
  · intro xhr h
    unfold postErrorText
    rw [if_neg h]

/-- C4 witness: a locked 500 response, a generic 500 response, and a polling
transport error produce the three distinct texts. -/
theorem c4_failure_messages_distinct_witness :
    postErrorText ⟨500, "\"Worker locked\"", some "Worker locked"⟩ =
      "All workers busy; please try again later." ∧
    postErrorText ⟨500, "internal error", none⟩ = "Unable to start job." ∧
    (onRunGetError pollingState).2 =
      [.renderRunDone "Ready" (some "Error fetching results; please try again.")] :=
  ⟨c4_failure_messages_distinct.1 ⟨500, "\"Worker locked\"", some "Worker locked"⟩
      (by decide) rfl,
   c4_failure_messages_distinct.2.1 ⟨500, "internal error", none⟩ (by decide),
   c4_failure_messages_distinct.2.2.2.1 pollingState⟩

/-- C5 counterexample: the create-task JSON body's top-level keys are
`patches`, `project`, and `user_id` — there is no `userId` field, so the body
does not contain exactly the fields `project`, `patches`, and `userId` as the
claim states. -/
theorem c5_counterexample_body_has_no_userId :
    (runRequestBody loadedState "<x/>").topKeys = ["patches", "project", "user_id"] ∧
    "userId" ∉ (runRequestBody loadedState "<x/>").topKeys := by
  constructor
  · rfl
  · decide

/-- C5 amended: every create-task request the client sends is a POST whose
JSON body contains exactly the fields `patches`, `project`, and `user_id`
(not `userId`), where `patches` is the single-element list holding the
one `{contents, filename}` pair built from the current editor file name and
the editor's current contents, and `project` is the loaded project's name. -/
theorem c5_amended_post_body_fields :
    ∀ (s : ClientState) (now : Int) (newId : Nat) (editorValue : String),
      (onRunControlClick s now newId editorValue).2 =
        [.ajaxTaskPost (runRequestBody s editorValue)] ∧
      (runRequestBody s editorValue).topKeys = ["patches", "project", "user_id"] ∧
      (runRequestBody s editorValue).getField "patches" =
        some (.arr [.obj [("contents", .str editorValue),
          ("filename", jsField s.editorFile)]]) ∧
      (runRequestBody s editorValue).getField "project" =
        some (jsField s.projectName) ∧
      (runRequestBody s editorValue).getField "user_id" = some (.str "some_user") := by
  intro s now newId editorValue
  exact ⟨rfl, rfl, rfl, rfl, rfl⟩

/-- C3 counterexample: a single, first transport failure of the status poll
is not retried at all — one `error` callback clears the polling interval
(so no further poll can fire) and immediately renders the fetch-error
message, contradicting retry-with-backoff and surfacing only after repeated
failures. -/
theorem c3_counterexample_first_error_stops :
    step pollingState .runGetError =
      (stopStatusUpdates (clearRun (stopPolling pollingState)),
        [.renderRunDone "Ready" (some "Error fetching results; please try again.")]) ∧
    (step pollingState .runGetError).1.runPolling = none :=
  ⟨rfl, rfl⟩

/-- C3 amended: when a status poll fails at the transport level (AJAX error,
or a non-200 HTTP status routed through the same handler), the client does
not retry: on the first such failure it stops the polling interval, clears
the stored run ticket and payload, and immediately renders the fetch-error
message. -/
theorem c3_amended_transport_error_stops_immediately :
    (∀ s : ClientState,
      onRunGetError s =
        (stopStatusUpdates (clearRun (stopPolling s)),
          [.renderRunDone "Ready" (some "Error fetching results; please try again.")]) ∧
      (onRunGetError s).1.runPolling = none ∧
      (onRunGetError s).1.runStart = none ∧
      (onRunGetError s).1.runTicket = none ∧
      (onRunGetError s).1.runPayload = none) ∧
    (∀ (s : ClientState) (data : RunResponse), data.httpStatus ≠ 200 →
      onRunGetSuccess s data = .ok (onRunGetError s).1 (onRunGetError s).2) := by
  constructor
  · intro s
    exact ⟨rfl, rfl, rfl, rfl, rfl⟩
  · intro s data h
    unfold onRunGetSuccess
    rw [if_pos h]

/-- C3 witness: a 500-status poll response takes the same stop-and-render
path as an AJAX error. -/
theorem c3_amended_transport_error_stops_immediately_witness :
    onRunGetSuccess pollingState ⟨500, none⟩ =
      .ok (onRunGetError pollingState).1 (onRunGetError pollingState).2 :=
  c3_amended_transport_error_stops_immediately.2 pollingState ⟨500, none⟩ (by decide)

/-- C1: for every 200 status-poll response with a present payload object,
status `"running"` leaves the module state entirely unchanged (in particular
the run ticket, run start time, and polling interval, so the next scheduled
poll still fires) and performs no action; every other status stops the
polling interval, clears the stored run ticket and payload, and renders the
formatted payload under the finished-run status line — exactly the
non-running statuses are terminal for the client. -/
theorem c1_running_reschedules_others_terminal :
    ∀ (s : ClientState) (data : RunResponse) (p : RunPayload),
      data.httpStatus = 200 → data.payload = some p →
      (p.status = taskRunning → onRunGetSuccess s data = .ok s []) ∧
      (p.status ≠ taskRunning →
        onRunGetSuccess s data =
          .ok (stopStatusUpdates (clearRun (stopPolling s)))
            [.renderRunDone
              ("Finished run of " ++ jsStr s.projectName ++ ". Status: " ++
                p.status ++ ". Result: ")
              (some (formatPayload p.status p.payload))] ∧
        (stopStatusUpdates (clearRun (stopPolling s))).runPolling = none ∧
        (stopStatusUpdates (clearRun (stopPolling s))).runStart = none ∧
        (stopStatusUpdates (clearRun (stopPolling s))).runTicket = none ∧
        (stopStatusUpdates (clearRun (stopPolling s))).runPayload = none) := by
  intro s data p h200 hp
  constructor
  · intro hrun
    unfold onRunGetSuccess
    simp [h200, hp, hrun]
  · intro hne
    refine ⟨?_, rfl, rfl, rfl, rfl⟩
    unfold onRunGetSuccess
    simp [h200, hp, hne, setUiStateRunDone]

/-- C1 witness: a running response leaves the polling state untouched, and a
complete response at the same state stops and renders. -/
theorem c1_running_reschedules_others_terminal_witness :
    onRunGetSuccess pollingState ⟨200, some ⟨"running", "building"⟩⟩ =
      .ok pollingState [] ∧
    (onRunGetSuccess pollingState ⟨200, some ⟨"complete", "QUJD"⟩⟩ =
        .ok (stopStatusUpdates (clearRun (stopPolling pollingState)))
          [.renderRunDone
            ("Finished run of " ++ jsStr pollingState.projectName ++ ". Status: " ++
              "complete" ++ ". Result: ")
            (some (formatPayload "complete" "QUJD"))] ∧
      (stopStatusUpdates (clearRun (stopPolling pollingState))).runPolling = none ∧
      (stopStatusUpdates (clearRun (stopPolling pollingState))).runStart = none ∧
      (stopStatusUpdates (clearRun (stopPolling pollingState))).runTicket = none ∧
      (stopStatusUpdates (clearRun (stopPolling pollingState))).runPayload = none) :=
  ⟨(c1_running_reschedules_others_terminal pollingState ⟨200, some ⟨"running", "building"⟩⟩
      ⟨"running", "building"⟩ rfl rfl).1 rfl,
   (c1_running_reschedules_others_terminal pollingState ⟨200, some ⟨"complete", "QUJD"⟩⟩
      ⟨"complete", "QUJD"⟩ rfl rfl).2 (by decide)⟩

/-- The C7 invariant: `_runPollingIntervalId` is non-null exactly when
`_runStart` is non-null. -/
def pollingInv (s : ClientState) : Prop :=
  s.runPolling = none ↔ s.runStart = none

/-- `_getRunResults` preserves the polling invariant. -/
theorem pollingInv_getRunResults (s : ClientState) (now : Int) (t : String)
    (h : pollingInv s) : pollingInv (getRunResults s now t).1 := by
  unfold getRunResults
  by_cases ht : (getDeltaSeconds s.runStart now).gtInt runPollingTimeoutSec = true
  · rw [if_pos ht]
    simp [pollingInv, setUiStateRunDone, stopStatusUpdates, stopPolling]
  · rw [if_neg ht]
    exact h

/-- `_startPolling` preserves the polling invariant. -/
theorem pollingInv_startPolling (s : ClientState) (now : Int) (newId : Nat)
    (t : String) (h : pollingInv s) : pollingInv (startPolling s now newId t).1 := by
  unfold startPolling
  by_cases hrp : s.runPolling ≠ none
  · rw [if_pos hrp]
    exact h
  · rw [if_neg hrp]
    simp [pollingInv]

/-- C7: at most one client polling loop is ever active — `_startPolling` is a
no-op (save a console log) when `_runPollingIntervalId` is already non-null;
a successful create-task response from a non-polling state records the run
start time and schedules exactly one fixed-interval loop; `_stopPolling`
resets both fields to null; the invariant that `_runPollingIntervalId` is set
exactly when `_runStart` is set holds initially and is preserved by every
event the module handles. -/
theorem c7_single_polling_loop :
    (∀ (s : ClientState) (now : Int) (newId : Nat) (ticket : String),
      s.runPolling ≠ none →
      startPolling s now newId ticket = (s, [.consoleLog "non-null polling id"])) ∧
    (∀ (s : ClientState) (now : Int) (newId : Nat) (xhr : Xhr) (p : PostPayload),
      xhr.status = 200 → s.runPolling = none →
      onProjectPostSuccess s now newId xhr (some p) =
        .ok { s with runStart := some now, runPolling := some (newId, p.ticket) } []) ∧
    (∀ s : ClientState,
      (stopPolling s).runPolling = none ∧ (stopPolling s).runStart = none) ∧
    pollingInv initialState ∧
    (∀ (s : ClientState) (e : ClientEvent), pollingInv s → pollingInv (step s e).1) := by
  refine ⟨?_, ?_, fun s => ⟨rfl, rfl⟩, by simp [pollingInv, initialState], ?_⟩
  · intro s now newId ticket h
    unfold startPolling
    rw [if_pos h]
  · intro s now newId xhr p h200 hnone
    unfold onProjectPostSuccess
    simp [h200, startPolling, hnone]
  · intro s e h
    cases e with
    | pollTick now =>
      simp only [step]
      cases hrp : s.runPolling with
      | none => exact h
      | some idt => exact pollingInv_getRunResults s now idt.2 h
    | runGetSuccess data =>
      simp only [step]
      unfold onRunGetSuccess
      by_cases h200 : data.httpStatus = 200
      · simp only [h200, ne_eq, not_true_eq_false, if_false]
        cases hp : data.payload with
        | none =>
          simp [HandlerResult.out, pollingInv, clearRun, stopPolling]
        | some p =>
          by_cases hrun : p.status = taskRunning
          · simpa [HandlerResult.out, hrun] using h
          · simp [HandlerResult.out, hrun, pollingInv, setUiStateRunDone,
              stopStatusUpdates, clearRun, stopPolling]
      · simp [HandlerResult.out, h200, pollingInv, onRunGetError,
          setUiStateRunDone, stopStatusUpdates, clearRun, stopPolling]
    | runGetError =>
      simp [step, pollingInv, onRunGetError, setUiStateRunDone, stopStatusUpdates,
        clearRun, stopPolling]
    | postSuccess now newId xhr payload =>
      simp only [step]
      unfold onProjectPostSuccess
      by_cases h200 : xhr.status = 200
      · simp only [h200, ne_eq, not_true_eq_false, if_false]
        cases payload with
        | none => exact h
        | some p => exact pollingInv_startPolling s now newId p.ticket h
      · simpa [HandlerResult.out, h200, pollingInv, onProjectPostError,
          setUiStateRunDone, stopStatusUpdates] using h
    | postError xhr =>
      simpa [step, pollingInv, onProjectPostError, setUiStateRunDone,
        stopStatusUpdates] using h
    | runClick now newId editorValue =>
      simp only [step, onRunControlClick, setUiStateRunning, startStatusUpdates]
      by_cases hs : s.statusUpdateIntervalId ≠ none
      · rw [if_pos hs]
        exact h
      · rw [if_neg hs]
        exact h
    | projectGetSuccess httpStatus filename projectName =>
      simp only [step, onProjectGetSuccess]
      by_cases hh : httpStatus ≠ 200
      · rw [if_pos hh]
        exact h
      · rw [if_neg hh]
        exact h

/-- C7 witness: starting polling while already polling is a no-op; a 200
create-task response from the loaded (non-polling) state starts the loop;
the invariant is preserved across a concrete event. -/
theorem c7_single_polling_loop_witness :
    startPolling pollingState 5000 9 "t2" =
      (pollingState, [.consoleLog "non-null polling id"]) ∧
    onProjectPostSuccess loadedState 1000 7 ⟨200, "", none⟩ (some ⟨"t1"⟩) =
      .ok { loadedState with runStart := some 1000, runPolling := some (7, "t1") } [] ∧
    pollingInv (step pollingState (.pollTick 4000)).1 :=
  ⟨c7_single_polling_loop.1 pollingState 5000 9 "t2" (by decide),
   c7_single_polling_loop.2.1 loadedState 1000 7 ⟨200, "", none⟩ ⟨"t1"⟩ rfl rfl,
   c7_single_polling_loop.2.2.2.2 pollingState (.pollTick 4000)
     (by simp [pollingInv, pollingState, loadedState, initialState])⟩

/-- After `_stopPolling`, a single non-`postSuccess` event keeps the
polling interval cleared and issues no status request. -/
theorem step_no_status_get (s : ClientState) (e : ClientEvent)
    (hrp : s.runPolling = none) (he : e.isPostSuccess = false) :
    (step s e).1.runPolling = none ∧ ¬ hasStatusGet (step s e).2 := by
  cases e with
  | pollTick now =>
    constructor
    · simp [step, hrp]
    · simp [step, hrp, hasStatusGet]
  | runGetSuccess data =>
    simp only [step]
    unfold onRunGetSuccess
    by_cases h200 : data.httpStatus = 200
    · simp only [h200, ne_eq, not_true_eq_false, if_false]
      cases data.payload with
      | none =>
        exact ⟨rfl, by simp [hasStatusGet, HandlerResult.out]⟩
      | some p =>
        by_cases hrun : p.status = taskRunning
        · simp only [hrun, if_pos rfl]
          exact ⟨hrp, by simp [hasStatusGet, HandlerResult.out]⟩
        · simp only [if_neg hrun]
          exact ⟨rfl, by simp [hasStatusGet, HandlerResult.out, setUiStateRunDone]⟩
    · simp only [h200, ne_eq, not_false_eq_true, if_true]
      exact ⟨rfl, by simp [hasStatusGet, HandlerResult.out, onRunGetError,
        setUiStateRunDone]⟩
  | runGetError =>
    exact ⟨rfl, by simp [hasStatusGet, step, onRunGetError, setUiStateRunDone]⟩
  | postSuccess now newId xhr payload => exact absurd he (by simp [ClientEvent.isPostSuccess])
  | postError xhr =>
    exact ⟨hrp, by simp [hasStatusGet, step, onProjectPostError, setUiStateRunDone]⟩
  | runClick now newId editorValue =>
    refine ⟨?_, by simp [hasStatusGet, step, onRunControlClick]⟩
    simp only [step, onRunControlClick, setUiStateRunning, startStatusUpdates]
    by_cases hs : s.statusUpdateIntervalId ≠ none
    · rw [if_pos hs]
      exact hrp
    · rw [if_neg hs]
      exact hrp
  | projectGetSuccess httpStatus filename projectName =>
    refine ⟨?_, by simp [hasStatusGet, step]⟩
    simp only [step, onProjectGetSuccess]
    by_cases hh : httpStatus ≠ 200
    · rw [if_pos hh]
      exact hrp
    · rw [if_neg hh]
      exact hrp

/-- After `_stopPolling`, any sequence of events containing no create-task
success keeps the interval cleared and issues no status request at all. -/
theorem run_no_status_get (events : List ClientEvent) :
    ∀ s : ClientState, s.runPolling = none →
    (∀ e ∈ events, e.isPostSuccess = false) →
    (run s events).1.runPolling = none ∧ ¬ hasStatusGet (run s events).2 := by
  induction events with
  | nil =>
    intro s hrp _
    exact ⟨hrp, by simp [run, hasStatusGet]⟩
  | cons e es ih =>
    intro s hrp hall
    have h1 := step_no_status_get s e hrp (hall e (List.mem_cons_self e es))
    have h2 := ih (step s e).1 h1.1 (fun e2 he2 => hall e2 (List.mem_cons_of_mem e he2))
    refine ⟨h2.1, ?_⟩
    rintro ⟨t, ht⟩
    rcases List.mem_append.mp ht with hmem | hmem
    · exact h1.2 ⟨t, hmem⟩
    · exact h2.2 ⟨t, hmem⟩

/-- C2: when a polling tick fires with the elapsed time since `_runStart`
past the 90-second client timeout, the handler stops the interval and
renders the local "Run timed out." state as its only action — no status
request (nor any other message) is issued that cycle — and from the
resulting state no later event short of a new create-task success ever
issues another status request. -/
theorem c2_client_timeout_is_local :
    ∀ (s : ClientState) (now : Int) (intervalId : Nat) (ticket : String),
      s.runPolling = some (intervalId, ticket) →
      (getDeltaSeconds s.runStart now).gtInt runPollingTimeoutSec = true →
      step s (.pollTick now) =
        (stopStatusUpdates (stopPolling s),
          [.renderRunDone "Ready" (some "Run timed out.")]) ∧
      ¬ hasStatusGet (step s (.pollTick now)).2 ∧
      (step s (.pollTick now)).1.runPolling = none ∧
      (∀ events : List ClientEvent,
        (∀ e ∈ events, e.isPostSuccess = false) →
        ¬ hasStatusGet (run (step s (.pollTick now)).1 events).2) := by
  intro s now intervalId ticket hrp ht
  have hstep : step s (.pollTick now) =
      (stopStatusUpdates (stopPolling s),
        [.renderRunDone "Ready" (some "Run timed out.")]) := by
    simp only [step, hrp]
    unfold getRunResults
    rw [if_pos ht]
    rfl
  refine ⟨hstep, ?_, ?_, ?_⟩
  · rw [hstep]
    simp [hasStatusGet]
  · rw [hstep]
    rfl
  · intro events hall
    exact (run_no_status_get events (step s (.pollTick now)).1
      (by rw [hstep]; rfl) hall).2

/-- C2 witness: at 100 seconds elapsed the tick times out locally, and a
subsequent error callback and stray tick never issue a status request. -/
theorem c2_client_timeout_is_local_witness :
    step pollingState (.pollTick 100000) =
      (stopStatusUpdates (stopPolling pollingState),
        [.renderRunDone "Ready" (some "Run timed out.")]) ∧
    ¬ hasStatusGet
      (run (step pollingState (.pollTick 100000)).1
        [.runGetError, .pollTick 103000]).2 :=
  ⟨(c2_client_timeout_is_local pollingState 100000 7 "t1" rfl (by decide)).1,
   (c2_client_timeout_is_local pollingState 100000 7 "t1" rfl (by decide)).2.2.2
     [.runGetError, .pollTick 103000] (by decide)⟩

/-- C10: `_newlineToBr` computes exactly the claim's description — the input
with `"<br />"` inserted immediately before each newline sequence, where
sequences are matched left to right preferring the pairs `\r\n` and `\n\r`
over single `\r` or `\n`, every non-newline character kept unchanged and in
order, and nothing else added or removed (the shape of
`specInsertBrBeforeNewlines`, which copies every non-newline character and
only ever inserts `brText`). -/
theorem c10_newline_to_br_inserts_br :
    (∀ l : List Char, newlineToBrAux l = specInsertBrBeforeNewlines l) ∧
    (∀ s : String, newlineToBr s = String.mk (specInsertBrBeforeNewlines s.data)) := by
  have main : ∀ l : List Char, newlineToBrAux l = specInsertBrBeforeNewlines l := by
    intro l
    induction l using newlineToBrAux.induct <;>
      simp_all [newlineToBrAux, specInsertBrBeforeNewlines]
  exact ⟨main, fun s => congrArg String.mk (main s.data)⟩

/-- Whether a store operation is the initial accept-write for ticket `t`.
Since tickets are never reused, no such operation occurs for a ticket whose
record already exists. -/
def StoreOp.isWriteInitialFor (t : String) : StoreOp → Bool
  | .writeInitial t2 => t2 == t
  | _ => false

/-- One store operation either leaves a terminal record for `t` intact or
garbage-collects it, provided the operation is not a (ticket-reusing)
initial write for `t`. -/
theorem applyOp_terminal_stable (store : ResultStore) (op : StoreOp) (t : String)
    (r : ResultRecord) (hterm : r.status.isTerminal = true)
    (hop : op.isWriteInitialFor t = false)
    (h : store t = some r ∨ store t = none) :
    applyOp store op t = some r ∨ applyOp store op t = none := by
  cases op with
  | writeInitial t2 =>
    have hne : t ≠ t2 := by
      intro he
      simp [StoreOp.isWriteInitialFor, he] at hop
    simp only [applyOp, if_neg hne]
    exact h
  | writeFinal t2 r2 =>
    simp only [applyOp]
    by_cases he : t = t2
    · subst he
      rcases h with h | h
      · rw [if_neg]
        · exact .inl h
        · rintro ⟨-, -, hrun⟩
          rw [h] at hrun
          simp only [Option.any_some] at hrun
          have : r.status = .running := by
            exact of_decide_eq_true hrun
          rw [this] at hterm
          exact absurd hterm (by simp [TaskStatus.isTerminal])
      · rw [if_neg]
        · exact .inr h
        · rintro ⟨-, -, hrun⟩
          rw [h] at hrun
          simp [Option.any] at hrun
    · rw [if_neg (by rintro ⟨he2, -⟩; exact he he2)]
      exact h
  | gcCollect t2 =>
    simp only [applyOp]
    by_cases he : t = t2
    · rw [if_pos he]
      exact .inr rfl
    · rw [if_neg he]
      exact h

/-- A sequence of reuse-free store operations keeps a terminal record for
`t` intact until (possibly) garbage-collecting it. -/
theorem applyOps_terminal_stable (ops : List StoreOp) :
    ∀ (store : ResultStore) (t : String) (r : ResultRecord),
      r.status.isTerminal = true →
      (∀ op ∈ ops, op.isWriteInitialFor t = false) →
      (store t = some r ∨ store t = none) →
      (applyOps store ops t = some r ∨ applyOps store ops t = none) := by
  induction ops with
  | nil =>
    intro store t r _ _ h
    exact h
  | cons op ops ih =>
    intro store t r hterm hall h
    exact ih (applyOp store op) t r hterm
      (fun op2 h2 => hall op2 (List.mem_cons_of_mem op h2))
      (applyOp_terminal_stable store op t r hterm
        (hall op (List.mem_cons_self op ops)) h)

/-- C6: once `pollStatus(t)` has returned a terminal record, every later
`pollStatus(t)` under any sequence of store operations — final writes,
garbage collection, and accept-writes for other tickets (tickets are never
reused, so no initial write targets `t` again) — returns the identical
record for as long as the record exists, i.e. until it is
garbage-collected. -/
theorem c6_terminal_status_stable :
    ∀ (store : ResultStore) (t : String) (r : ResultRecord),
      pollStatus store t = some r → r.status.isTerminal = true →
      ∀ (ops : List StoreOp),
        (∀ op ∈ ops, op.isWriteInitialFor t = false) →
        ∀ r2 : ResultRecord,
          pollStatus (applyOps store ops) t = some r2 → r2 = r := by
  intro store t r hpoll hterm ops hall r2 hpoll2
  have h := applyOps_terminal_stable ops store t r hterm hall (.inl hpoll)
  rcases h with h | h
  · rw [pollStatus] at hpoll2
    rw [h] at hpoll2
    exact (Option.some_injective _ hpoll2).symm
  · rw [pollStatus] at hpoll2
    rw [h] at hpoll2
    exact absurd hpoll2 (by simp)

/-- A concrete store holding a terminal record for ticket `"t1"`. -/
def c6Store : ResultStore := fun k =>
  if k = "t1" then some { status := .complete, payload := "QUJD" } else none

/-- A concrete reuse-free operation sequence: a stray final write for
`"t1"`, an accept for a fresh ticket, and garbage collection of another. -/
def c6Ops : List StoreOp :=
  [.writeFinal "t1" { status := .error, payload := "boom" },
   .writeInitial "t2",
   .gcCollect "t9"]

/-- C6 witness: after the concrete operation sequence the poll still returns
the original terminal record, and the theorem identifies them. -/
theorem c6_terminal_status_stable_witness :
    pollStatus c6Store "t1" = some { status := .complete, payload := "QUJD" } ∧
    pollStatus (applyOps c6Store c6Ops) "t1" =
      some { status := .complete, payload := "QUJD" } ∧
    ({ status := .complete, payload := "QUJD" } : ResultRecord) =
      { status := .complete, payload := "QUJD" } := by
  refine ⟨by decide, by decide, ?_⟩
  exact c6_terminal_status_stable c6Store "t1"
    { status := .complete, payload := "QUJD" } (by decide) (by decide)
    c6Ops (by decide) { status := .complete, payload := "QUJD" } (by decide)

end AndroidClient
